import Mathlib

/-!
Verification of the process-supervision module `src/matrix/utils/os.py`
(functions `kill_proc_tree`, `read_stdout_lines`, `run_and_stream`,
`stop_process`, `lock_file`) against its natural-language specification.

The Python module is shallowly embedded: each Python function becomes a
Lean function over explicit state.  Effects on the operating system
(signals sent, processes waited on) are returned as explicit effect
records; exceptions become `Except` / an explicit `raised` constructor;
the OS process table used by `psutil` becomes an explicit structure.
-/

set_option autoImplicit false

namespace MatrixOs

/-! ### Output buffer: `collections.deque(maxlen=10)`

`run_and_stream` keeps the streamed lines in
`stdout_buffer: tp.Deque[str] = deque(maxlen=10)`.  A Python deque with a
`maxlen` appends on the right and, once `maxlen` is reached, silently
evicts the leftmost (oldest) element.  `dequeAppend` renders one such
`append`; the drop count `buf.length + 1 - maxlen` is `0` (natural
subtraction) while the deque is below capacity. -/

def dequeAppend (maxlen : Nat) (buf : List String) (x : String) : List String :=
  (buf ++ [x]).drop (buf.length + 1 - maxlen)

/-- The buffer contents after the streaming worker `stream_output` has
appended, in production order, every line the child wrote.  The worker is
the sole writer of the buffer; it appends each line exactly once (either
inside the polling loop or in the final drain loop). -/
def streamBuffer (lines : List String) : List String :=
  lines.foldl (dequeAppend 10) []

/-! ### Process handles and `stop_process` -/

/-- The observable state of a `subprocess.Popen` handle: its pid, the id
of the process group it was started in (`preexec_fn=os.setsid` makes the
group id equal the pid, but the model keeps the field separate), and the
result of `poll()` — `none` while the child is running, `some c` once it
has exited with code `c`. -/
structure Proc where
  pid : Int
  pgid : Int
  poll : Option Int
deriving DecidableEq, Repr

/-- Effects `stop_process` has on the operating system: the list of
(process-group id, signal name) pairs sent via `os.killpg`, and the pids
passed to `Popen.wait`. -/
structure OsEffects where
  signals : List (Int × String)
  waitedFor : List Int
deriving DecidableEq, Repr

def noEffects : OsEffects := { signals := [], waitedFor := [] }

/-- Model of `os.killpg(pgid, signal.SIGTERM)`: records the signal. -/
def os_killpg (eff : OsEffects) (pgid : Int) (sig : String) : OsEffects :=
  { eff with signals := eff.signals ++ [(pgid, sig)] }

/-- Model of `process.wait()`: records the pid waited on. -/
def proc_wait (eff : OsEffects) (p : Proc) : OsEffects :=
  { eff with waitedFor := eff.waitedFor ++ [p.pid] }

/-- Embedding of `stop_process(process)`:

    if process and process.poll() is None:
        os.killpg(os.getpgid(process.pid), signal.SIGTERM)
        process.wait()

A `Popen` object is always truthy, so the `process and` conjunct only
guards against `None`; `os.getpgid(process.pid)` is `p.pgid`.  When the
poll result is not `None` (child already exited) the body is skipped
entirely: no signal, no wait, no exception. -/
def stop_process (p : Option Proc) : OsEffects :=
  match p with
  | none => noEffects
  | some pr =>
      if pr.poll = none then proc_wait (os_killpg noEffects pr.pgid "SIGTERM") pr
      else noEffects

/-! ### The blocking branch of `run_and_stream` -/

/-- The dictionary built by the blocking branch of `run_and_stream`.
The success path returns keys `success`, `exit_code`, `stdout`; the
except path would return keys `success`, `error`, `traceback`, `stdout`.
Keys absent from a path are modelled as `none`. -/
structure RunResult where
  success : Bool
  exit_code : Option Int
  stdout : Option String
  error : Option String
deriving DecidableEq, Repr

/-- Outcome of calling a Python function: a returned value, or an
exception of the given class escaping to the caller. -/
inductive PyOutcome (α : Type) where
  | ok (a : α)
  | raised (excClass : String)
deriving DecidableEq, Repr

/-- Embedding of the `except Exception as e` handler of the blocking
branch:

    except Exception as e:
        return {
            "success": False,
            "error": str(e),
            "traceback": traceback.format_exc(),
            "stdout": stdout_content,
        }

`stdout_content` is a local of the enclosing function assigned only
after the wait loop finishes normally; the handler reads it, so its
value at handler entry is threaded in as an `Option` (`none` = not yet
bound).  Evaluating an unbound local raises `UnboundLocalError`, which
escapes the handler and propagates to the caller. -/
def exceptHandler (e : String) (stdout_content : Option String) : PyOutcome RunResult :=
  match stdout_content with
  | some s =>
      .ok { success := false, exit_code := none, stdout := some s, error := some e }
  | none => .raised "UnboundLocalError"

/-- Everything observable about one blocking `run_and_stream` call after
the child was spawned: the returned value or escaped exception, how many
times the `finally` block invoked `stop_process` (the only caller of
`os.killpg` on this path), and the signals sent. -/
structure BlockingTrace where
  outcome : PyOutcome RunResult
  stopProcessCalls : Nat
  effects : OsEffects
deriving DecidableEq, Repr

/-- Embedding of the `blocking=True` branch of `run_and_stream`, from the
point where the child has been spawned.  The child is modelled by the
lines it writes to the combined stdout/stderr pipe (`childLines`) and its
exit code (`exitCode`).  The interleaving assumed is the canonical one in
which the streaming worker has appended every produced line to the buffer
before the waiting thread joins the buffer into `stdout_content` (the
worker drains the pipe in its `finally` block, and the waiting thread
polls at a coarse 1s interval, so this is the schedule the code is
written for).

`waitExc = some e` means an exception is raised inside the

    while True:
        exit_code = process.poll()
        if exit_code is not None: ...break
        time.sleep(1)

wait loop (for example `KeyboardInterrupt` in `time.sleep`).  Every
statement of the `try` block that can raise precedes the assignment
`stdout_content = "".join(stdout_buffer)`, so on the exception path the
handler sees `stdout_content` unbound.  `stillAliveOnExc` records whether
the child is still running when the `finally` block executes; on the
normal path the wait loop only ends once `poll()` returned an exit code,
so there the child has certainly exited. -/
def run_and_stream_blocking (pid pgid : Int) (childLines : List String)
    (exitCode : Int) (waitExc : Option String) (stillAliveOnExc : Bool) :
    BlockingTrace :=
  let buffer := streamBuffer childLines
  let tryOutcome : PyOutcome RunResult :=
    match waitExc with
    | none =>
        let stdout_content := String.join buffer
        .ok { success := exitCode == 0, exit_code := some exitCode,
              stdout := some stdout_content, error := none }
    | some e => exceptHandler e none
  let procAtFinally : Proc :=
    { pid := pid, pgid := pgid,
      poll := if waitExc.isSome && stillAliveOnExc then none else some exitCode }
  let fin := stop_process (some procAtFinally)
  { outcome := tryOutcome, stopProcessCalls := 1, effects := fin }

/-! ### The generator `read_stdout_lines`

The pipe is modelled by the complete sequence of lines `readline` will
return before end of stream (each line keeps its trailing newline, so it
is nonempty; at end of stream `readline` returns the empty string).  With
that model `select.select([...], [], [], 0)` always reports the pipe
ready (data is pending, or end of stream is readable), so the generator
is a total function from the stream to the yielded lines. -/

/-- Model of Python `str.strip()` with no argument: remove leading and
trailing whitespace characters. -/
def pyStrip (s : String) : String :=
  String.mk (((s.data.dropWhile Char.isWhitespace).reverse.dropWhile
    Char.isWhitespace).reverse)

/-- One readline-and-yield loop of `read_stdout_lines`:

    while True:
        ready_to_read, _, _ = select.select([proc.stdout], [], [], 0)
        if ready_to_read:
            output_line = proc.stdout.readline()
            if not output_line:
                break
            yield output_line.strip()

A falsy (empty) `output_line` breaks the loop; otherwise the stripped
line is yielded. -/
def readLinesLoop : List String → List String
  | [] => []
  | l :: rest => if l = "" then [] else pyStrip l :: readLinesLoop rest

/-- Embedding of `read_stdout_lines(proc)`.  `stdout = none` models a
`proc` whose `stdout` attribute is `None` (no pipe was requested): the
generator raises `ValueError` before yielding anything.  Otherwise it
returns the full list of yielded lines. -/
def read_stdout_lines (stdout : Option (List String)) : Except String (List String) :=
  match stdout with
  | none => .error "ValueError"
  | some lines => .ok (readLinesLoop lines)

/-! ### The psutil process table and `kill_proc_tree`

`psutil` reads the OS process table.  The table is modelled explicitly:
the list of live pids and the child-parent edges.  The psutil operations
used by `kill_proc_tree` are:

* `psutil.Process(pid)` — raises `psutil.NoSuchProcess` if `pid` is not
  in the table;
* `Process.children(recursive=True)` — the live descendants, depth-first;
* `Process.kill()` — sends SIGKILL; raises `NoSuchProcess` if the
  process no longer exists;
* `psutil.wait_procs(procs, timeout)` — reaps the given processes,
  returning `(gone, still_alive)`; never raises;
* `Process.wait(timeout)` — raises `TimeoutExpired` only if the process
  is still alive after the timeout; a SIGKILLed process exits, so after a
  successful `kill()` it returns normally.

Descendants can exit on their own between the enumeration and the kill
loop; the `asyncExits` parameter lists the pids that do so. -/

abbrev Pid := Nat

structure ProcTable where
  live : List Pid
  parentOf : List (Pid × Pid)
deriving DecidableEq, Repr

/-- Live children of `p`: the live pids whose (child, parent) edge names
`p` as the parent. -/
def childrenOf (t : ProcTable) (p : Pid) : List Pid :=
  t.live.filter (fun c => decide ((c, p) ∈ t.parentOf))

/-- Recursive descendant enumeration, fuelled by the table size (a chain
of live descendants cannot be longer than the number of live pids). -/
def descendantsAux (t : ProcTable) : Nat → Pid → List Pid
  | 0, _ => []
  | fuel + 1, p => (childrenOf t p).flatMap (fun c => c :: descendantsAux t fuel c)

/-- Model of `parent.children(recursive=True)`. -/
def descendants (t : ProcTable) (p : Pid) : List Pid :=
  descendantsAux t t.live.length p

inductive PsError where
  | noSuchProcess (pid : Pid)
deriving DecidableEq, Repr

/-- Model of `Process.kill()` on pid `p`: removes `p` from the table, or
raises `NoSuchProcess` if `p` is already gone. -/
def psKill (t : ProcTable) (p : Pid) : Except PsError ProcTable :=
  if p ∈ t.live then .ok { t with live := t.live.erase p }
  else .error (.noSuchProcess p)

/-- The `for child in children: child.kill()` loop; the first
`NoSuchProcess` escapes (the loop body has no exception handler). -/
def killChildren (t : ProcTable) : List Pid → Except PsError ProcTable
  | [] => .ok t
  | c :: cs =>
      match psKill t c with
      | .ok t1 => killChildren t1 cs
      | .error e => .error e

/-- The pids in `exits` leave the process table (they exit on their own). -/
def procTableExit (t : ProcTable) (exits : List Pid) : ProcTable :=
  { t with live := t.live.filter (fun q => decide (q ∉ exits)) }

/-- Embedding of `kill_proc_tree(pid, including_parent=True)`:

    parent = psutil.Process(pid)
    children = parent.children(recursive=True)
    for child in children:
        child.kill()
    gone, still_alive = psutil.wait_procs(children, timeout=5)
    if including_parent:
        parent.kill()
        parent.wait(5)

`psutil.Process(pid)` raises `NoSuchProcess` for an absent root.  The
pids in `asyncExits` exit between the enumeration of `children` and the
kill loop, so a `child.kill()` that reaches one of them raises
`NoSuchProcess`.  `wait_procs` never raises and only reaps, which leaves
the model table unchanged; `parent.wait(5)` after a successful
`parent.kill()` returns normally. -/
def kill_proc_tree (t0 : ProcTable) (asyncExits : List Pid) (pid : Pid)
    (includingParent : Bool) : Except PsError ProcTable :=
  if pid ∈ t0.live then
    let children := descendants t0 pid
    let t1 := procTableExit t0 asyncExits
    match killChildren t1 children with
    | .error e => .error e
    | .ok t2 =>
        if includingParent then
          match psKill t2 pid with
          | .error e => .error e
          | .ok t3 => .ok t3
        else .ok t2
  else .error (.noSuchProcess pid)

/-! ### File locking: `lock_file`

`lock_file` loops around `portalocker.Lock(filepath, mode,
flags=portalocker.LockFlags.EXCLUSIVE)`.  In the portalocker library,
`Lock` is a class whose constructor only stores its arguments
(`filename`, `mode`, `flags`, timeout parameters); it performs no file
I/O and acquires nothing — acquisition happens later, in
`Lock.acquire()` or `Lock.__enter__`, neither of which `lock_file`
calls.  Constructing a `Lock` therefore always succeeds and in
particular never raises `portalocker.exceptions.AlreadyLocked`, whatever
the lock state of the file is.  The model keeps the external lock state
(`heldByOther`) as a parameter so this independence is visible. -/

inductive PortalockerError where
  | alreadyLocked
deriving DecidableEq, Repr

/-- The object built by the `portalocker.Lock` constructor: the stored
arguments plus whether the underlying file lock has been acquired
(always `false` at construction). -/
structure PortalockerLock where
  filepath : String
  mode : String
  flags : String
  acquired : Bool
deriving DecidableEq, Repr

/-- Model of the constructor call
`portalocker.Lock(filepath, mode, flags=portalocker.LockFlags.EXCLUSIVE)`:
always returns an unacquired lock object, regardless of `heldByOther`. -/
def portalockerLockNew (_heldByOther : Bool) (filepath mode : String) :
    Except PortalockerError PortalockerLock :=
  .ok { filepath := filepath, mode := mode, flags := "EXCLUSIVE", acquired := false }

/-- What a `lock_file` call returns, or the `TimeoutError` it raises. -/
inductive LockFileResult where
  | handle (l : PortalockerLock)
  | timeoutError (filepath : String) (timeout : Nat)
deriving DecidableEq, Repr

/-- Observable trace of a `lock_file` call: its result, how many loop
iterations ran, and how many `time.sleep(poll_interval)` calls were
made.  Elapsed wall time is `sleeps * poll_interval`. -/
structure LockFileTrace where
  result : LockFileResult
  iterations : Nat
  sleeps : Nat
deriving DecidableEq, Repr

/-- The `while True` loop of `lock_file`, fuelled.  Each iteration tries
the constructor; on `AlreadyLocked` it compares the elapsed time
(`sleeps * poll`, rendering `time.time() - start_time`) with the
timeout, raising `TimeoutError` at or past the deadline and sleeping
`poll` otherwise.  `time.sleep` counts toward the next iteration. -/
def lock_fileLoop (heldByOther : Bool) (filepath mode : String)
    (timeout poll : Nat) : Nat → Nat → LockFileTrace
  | 0, iters =>
      { result := .timeoutError filepath timeout, iterations := iters, sleeps := iters }
  | fuel + 1, iters =>
      match portalockerLockNew heldByOther filepath mode with
      | .ok lk => { result := .handle lk, iterations := iters + 1, sleeps := iters }
      | .error .alreadyLocked =>
          if timeout ≤ iters * poll then
            { result := .timeoutError filepath timeout, iterations := iters + 1,
              sleeps := iters }
          else lock_fileLoop heldByOther filepath mode timeout poll fuel (iters + 1)

/-- Embedding of `lock_file(filepath, mode, timeout=10, poll_interval=0.1)`.
The fuel bound `timeout / poll + 2` exceeds the number of sleeps the loop
can make before its own deadline check fires, so the fuel-exhausted
branch is unreachable. -/
def lock_file (heldByOther : Bool) (filepath mode : String)
    (timeout poll : Nat) : LockFileTrace :=
  lock_fileLoop heldByOther filepath mode timeout poll (timeout / poll + 2) 0

/-- Modelled from the shell, not the repository: the command
`echo hello && exit 3` writes the single line "hello" (with a trailing
newline) to stdout and exits with status 3. -/
def echoHelloExit3_lines : List String := ["hello\n"]

/-- Exit status of `echo hello && exit 3`. -/
def echoHelloExit3_code : Int := 3

/-! ## Theorems -/

/-- Folding `deque(maxlen=K).append` over a line sequence from the empty
deque leaves exactly the suffix of the sequence that fits in `K`. -/
theorem foldl_dequeAppend (K : Nat) (lines : List String) :
    lines.foldl (dequeAppend K) [] = lines.drop (lines.length - K) := by
  induction lines using List.reverseRecOn with
  | nil => simp
  | append_singleton ys x ih =>
      rw [List.foldl_append, List.foldl_cons, List.foldl_nil, ih]
      simp only [dequeAppend]
      rw [← List.drop_append_of_le_length (Nat.sub_le ys.length K), List.drop_drop]
      congr 1
      simp only [List.length_drop, List.length_append, List.length_singleton]
      omega

/-- C3: for every sequence of lines produced by the child, the
`stdout_buffer` deque never holds more than its fixed capacity of 10
entries; it always holds exactly the last `min M 10` lines in production
order, and after `M > 10` appends it holds exactly the last 10 (strict
FIFO eviction of the oldest). -/
theorem stdout_buffer_bounded_fifo (lines : List String) :
    (streamBuffer lines).length ≤ 10 ∧
      streamBuffer lines = lines.drop (lines.length - 10) ∧
      (10 < lines.length → (streamBuffer lines).length = 10) := by
  have h : streamBuffer lines = lines.drop (lines.length - 10) :=
    foldl_dequeAppend 10 lines
  refine ⟨?_, h, fun hM => ?_⟩
  · rw [h, List.length_drop]; omega
  · rw [h, List.length_drop]; omega

/-- Twelve concrete lines, two past the buffer capacity. -/
def twelveLines : List String :=
  ["l1\n", "l2\n", "l3\n", "l4\n", "l5\n", "l6\n", "l7\n", "l8\n",
   "l9\n", "l10\n", "l11\n", "l12\n"]

/-- Witness for C3 at a concrete 12-line sequence. -/
theorem stdout_buffer_bounded_fifo_witness :
    10 < twelveLines.length ∧ (streamBuffer twelveLines).length = 10 :=
  ⟨by decide, (stdout_buffer_bounded_fifo twelveLines).2.2 (by decide)⟩

/-- C1: an exception raised inside the wait loop of a blocking
`run_and_stream` call is not captured into the result: the except
handler evaluates the local `stdout_content`, which is only assigned
after the wait loop completes normally, so the handler itself raises
`UnboundLocalError` and that exception propagates to the caller instead
of a structured result. -/
theorem run_blocking_wait_exception_propagates (pid pgid : Int)
    (lines : List String) (c : Int) (e : String) (alive : Bool) :
    (run_and_stream_blocking pid pgid lines c (some e) alive).outcome =
      PyOutcome.raised "UnboundLocalError" := rfl

/-- C2 counterexample: a blocking run whose child exits normally with
code 0 sends no termination signal at all — `stop_process` finds
`poll()` non-`None` and skips `os.killpg` — so the process group is not
signaled exactly once on every exit path. -/
theorem run_blocking_success_sends_no_signal :
    ((run_and_stream_blocking 21 21 ["done\n"] 0 none false).effects.signals).length ≠ 1 := by
  decide

/-- C2 amended: on every exit path of a blocking `run_and_stream` call
the `finally` block invokes `stop_process` exactly once, and the process
group is signaled at most once — exactly once (with SIGTERM) when the
child is still running at cleanup, and zero times when it has already
exited. -/
theorem run_blocking_stop_once_signal_at_most_once (pid pgid : Int)
    (lines : List String) (c : Int) (waitExc : Option String) (alive : Bool) :
    (run_and_stream_blocking pid pgid lines c waitExc alive).stopProcessCalls = 1 ∧
      (run_and_stream_blocking pid pgid lines c waitExc alive).effects.signals =
        (if waitExc.isSome && alive then [(pgid, "SIGTERM")] else []) := by
  cases waitExc <;> cases alive <;>
    simp [run_and_stream_blocking, stop_process, noEffects, os_killpg, proc_wait,
      exceptHandler]

/-- C4: a blocking run whose child exits with code 0 returns a result
with `success=True` and `exit_code=0`; one whose child exits with a
non-zero code C returns `success=False` and `exit_code=C` (the joined
buffer as stdout in both cases). -/
theorem run_blocking_exit_code_maps_to_success (pid pgid : Int)
    (lines : List String) (c : Int) :
    (c = 0 → (run_and_stream_blocking pid pgid lines c none false).outcome =
      PyOutcome.ok { success := true, exit_code := some 0,
                     stdout := some (String.join (streamBuffer lines)), error := none }) ∧
    (c ≠ 0 → (run_and_stream_blocking pid pgid lines c none false).outcome =
      PyOutcome.ok { success := false, exit_code := some c,
                     stdout := some (String.join (streamBuffer lines)), error := none }) := by
  constructor
  · intro h
    subst h
    rfl
  · intro h
    simp [run_and_stream_blocking, beq_eq_false_iff_ne, h]

/-- Witness for C4 at exit codes 0 and 5. -/
theorem run_blocking_exit_code_maps_to_success_witness :
    (run_and_stream_blocking 7 7 ["hi\n"] 0 none false).outcome =
      PyOutcome.ok { success := true, exit_code := some 0,
                     stdout := some "hi\n", error := none } ∧
    (run_and_stream_blocking 7 7 ["hi\n"] 5 none false).outcome =
      PyOutcome.ok { success := false, exit_code := some 5,
                     stdout := some "hi\n", error := none } :=
  ⟨((run_blocking_exit_code_maps_to_success 7 7 ["hi\n"] 0).1 rfl).trans (by decide),
   ((run_blocking_exit_code_maps_to_success 7 7 ["hi\n"] 5).2 (by decide)).trans (by decide)⟩

/-- C8: running `echo hello && exit 3` in blocking mode yields
`success=False`, `exit_code=3` and the stdout tail "hello" followed by a
newline. -/
theorem run_echo_hello_exit3 :
    (run_and_stream_blocking 11 11 echoHelloExit3_lines echoHelloExit3_code
        none false).outcome =
      PyOutcome.ok { success := false, exit_code := some 3,
                     stdout := some "hello\n", error := none } := by
  decide

/-- C9: `stop_process` on a handle whose process has already exited is a
no-op: no signal is sent, nothing is waited on and no exception is
raised; on a live process it sends SIGTERM to the whole process group
and waits for the process to exit. -/
theorem stop_process_idempotent (p : Proc) :
    (p.poll ≠ none → stop_process (some p) = noEffects) ∧
    (p.poll = none → stop_process (some p) =
      { signals := [(p.pgid, "SIGTERM")], waitedFor := [p.pid] }) := by
  constructor
  · intro h
    simp [stop_process, h]
  · intro h
    simp [stop_process, h, os_killpg, proc_wait, noEffects]

/-- Witness for C9: an exited process (poll = some 0) and a live one. -/
theorem stop_process_idempotent_witness :
    ((Proc.mk 5 5 (some 0)).poll ≠ none ∧
      stop_process (some (Proc.mk 5 5 (some 0))) = noEffects) ∧
    ((Proc.mk 6 6 none).poll = none ∧
      stop_process (some (Proc.mk 6 6 none)) =
        { signals := [(6, "SIGTERM")], waitedFor := [6] }) :=
  ⟨⟨by decide, (stop_process_idempotent ⟨5, 5, some 0⟩).1 (by decide)⟩,
   ⟨rfl, (stop_process_idempotent ⟨6, 6, none⟩).2 rfl⟩⟩

/-- The readline loop yields exactly the stripped lines, in order, when
no line is the empty string (a real `readline` on a pipe returns the
empty string only at end of stream). -/
theorem readLinesLoop_eq_map_strip (lines : List String)
    (h : ∀ l ∈ lines, l ≠ "") :
    readLinesLoop lines = lines.map pyStrip := by
  induction lines with
  | nil => rfl
  | cons l rest ih =>
      have hl : l ≠ "" := h l (by simp)
      simp [readLinesLoop, hl, ih (fun x hx => h x (by simp [hx]))]

/-- C10: `read_stdout_lines` raises `ValueError` before yielding
anything exactly when the handle has no stdout pipe; on a pipe it yields
every line stripped of surrounding whitespace, in order, terminating
when a read returns the empty string (end of stream). -/
theorem read_stdout_lines_spec (stdout : Option (List String))
    (lines : List String) :
    (read_stdout_lines stdout = .error "ValueError" ↔ stdout = none) ∧
    ((∀ l ∈ lines, l ≠ "") →
      read_stdout_lines (some lines) = .ok (lines.map pyStrip)) := by
  constructor
  · cases stdout <;> simp [read_stdout_lines]
  · intro h
    simp [read_stdout_lines, readLinesLoop_eq_map_strip lines h]

/-- Witness for C10 on a concrete two-line stream. -/
theorem read_stdout_lines_spec_witness :
    (∀ l ∈ (["alpha\n", "  beta  \n"] : List String), l ≠ "") ∧
      read_stdout_lines (some ["alpha\n", "  beta  \n"]) = .ok ["alpha", "beta"] :=
  ⟨by decide,
   ((read_stdout_lines_spec (some ["alpha\n", "  beta  \n"])
      ["alpha\n", "  beta  \n"]).2 (by decide)).trans (congrArg Except.ok (by decide))⟩

/-- C6: `lock_file` never retries and never raises `TimeoutError`,
whatever the lock state of the file: the `portalocker.Lock` constructor
acquires nothing and never raises `AlreadyLocked`, so every call returns
on its first loop iteration, after zero sleeps, with an unacquired lock
object — the retry/timeout branch is dead code. -/
theorem lock_file_returns_first_iteration (held : Bool) (fp mode : String)
    (timeout poll : Nat) :
    lock_file held fp mode timeout poll =
      { result := .handle { filepath := fp, mode := mode,
                            flags := "EXCLUSIVE", acquired := false },
        iterations := 1, sleeps := 0 } := rfl

/-- C7: a call on a lock held by another holder returns a handle whose
lock was never acquired (`acquired = false`), instead of failing. -/
theorem lock_file_returns_unacquired_handle :
    (lock_file true "shared.lock" "w" 10 1).result =
      LockFileResult.handle { filepath := "shared.lock", mode := "w",
                              flags := "EXCLUSIVE", acquired := false } := rfl

/-- Every enumerated descendant is a live pid of the table the
enumeration ran against. -/
theorem descendantsAux_subset_live (t : ProcTable) :
    ∀ (fuel : Nat) (p d : Pid), d ∈ descendantsAux t fuel p → d ∈ t.live := by
  intro fuel
  induction fuel with
  | zero =>
      intro p d h
      simp [descendantsAux] at h
  | succ n ih =>
      intro p d h
      simp only [descendantsAux, List.mem_flatMap] at h
      obtain ⟨c, hc, hd⟩ := h
      rcases List.mem_cons.mp hd with rfl | hd
      · exact (List.mem_filter.mp hc).1
      · exact ih c d hd

/-- The kill loop over a duplicate-free list of pids that are all live
succeeds, and afterwards exactly those pids are gone from the table. -/
theorem killChildren_ok (cs : List Pid) :
    ∀ t : ProcTable, t.live.Nodup → cs.Nodup → (∀ c ∈ cs, c ∈ t.live) →
      ∃ t2, killChildren t cs = .ok t2 ∧ t2.live.Nodup ∧
        (∀ q, q ∈ t2.live ↔ q ∈ t.live ∧ q ∉ cs) := by
  induction cs with
  | nil =>
      intro t ht _ _
      exact ⟨t, rfl, ht, by simp⟩
  | cons c cs ih =>
      intro t ht hnd hmem
      obtain ⟨hc_not, hcs_nd⟩ := List.nodup_cons.mp hnd
      have hc : c ∈ t.live := hmem c (List.mem_cons_self c cs)
      have hkill : psKill t c = .ok { t with live := t.live.erase c } := by
        simp [psKill, hc]
      have ht1 : ({ t with live := t.live.erase c } : ProcTable).live.Nodup :=
        ht.erase c
      have hmem1 : ∀ x ∈ cs, x ∈ ({ t with live := t.live.erase c } : ProcTable).live := by
        intro x hx
        have hneq : x ≠ c := fun hq => hc_not (hq ▸ hx)
        exact ht.mem_erase_iff.mpr ⟨hneq, hmem x (List.mem_cons_of_mem c hx)⟩
      obtain ⟨t2, h2, hnd2, hiff⟩ := ih _ ht1 hcs_nd hmem1
      refine ⟨t2, ?_, hnd2, ?_⟩
      · simp [killChildren, hkill, h2]
      · intro q
        rw [hiff q]
        show q ∈ t.live.erase c ∧ q ∉ cs ↔ q ∈ t.live ∧ q ∉ c :: cs
        rw [ht.mem_erase_iff, List.mem_cons]
        constructor
        · rintro ⟨⟨hqc, hqt⟩, hqcs⟩
          exact ⟨hqt, fun hor => hor.elim hqc hqcs⟩
        · rintro ⟨hqt, hqor⟩
          exact ⟨⟨fun hq => hqor (Or.inl hq), hqt⟩, fun hq => hqor (Or.inr hq)⟩

/-- C5 counterexample: `kill_proc_tree` does raise.  With root 1 and
child 2, if the child exits between the enumeration of `children` and
the kill loop, `child.kill()` raises `NoSuchProcess`; and calling it on
an absent root pid 7 raises `NoSuchProcess` at `psutil.Process(7)`. -/
theorem kill_proc_tree_raises_on_gone_process :
    kill_proc_tree { live := [1, 2], parentOf := [(2, 1)] } [2] 1 true =
      .error (.noSuchProcess 2) ∧
    kill_proc_tree { live := [], parentOf := [] } [] 7 true =
      .error (.noSuchProcess 7) :=
  ⟨rfl, rfl⟩

/-- C5 amended: `kill_proc_tree` completes without error provided the
root process exists, does not exit on its own, is not among its own
descendants, and every enumerated descendant is distinct and stays alive
until it is signaled; a descendant that exits between enumeration and
signaling, or an absent root, instead raises `NoSuchProcess` (the
function has no handler for either). -/
theorem kill_proc_tree_ok_of_alive (t : ProcTable) (asyncExits : List Pid)
    (pid : Pid) (includingParent : Bool)
    (hnodup : t.live.Nodup)
    (hroot : pid ∈ t.live)
    (hrootstay : pid ∉ asyncExits)
    (hrootnotdesc : pid ∉ descendants t pid)
    (hdesc_nd : (descendants t pid).Nodup)
    (hstay : ∀ d ∈ descendants t pid, d ∉ asyncExits) :
    ∃ t2, kill_proc_tree t asyncExits pid includingParent = .ok t2 := by
  have hlive1 : (procTableExit t asyncExits).live.Nodup := hnodup.filter _
  have hmem1 : ∀ d ∈ descendants t pid, d ∈ (procTableExit t asyncExits).live := by
    intro d hd
    exact List.mem_filter.mpr
      ⟨descendantsAux_subset_live t _ pid d hd, by simp [hstay d hd]⟩
  obtain ⟨t2, h2, _, hiff⟩ :=
    killChildren_ok (descendants t pid) (procTableExit t asyncExits)
      hlive1 hdesc_nd hmem1
  have hroot1 : pid ∈ (procTableExit t asyncExits).live :=
    List.mem_filter.mpr ⟨hroot, by simp [hrootstay]⟩
  have hpid2 : pid ∈ t2.live := (hiff pid).mpr ⟨hroot1, hrootnotdesc⟩
  cases includingParent with
  | false =>
      exact ⟨t2, by simp [kill_proc_tree, hroot, h2]⟩
  | true =>
      refine ⟨{ t2 with live := t2.live.erase pid }, ?_⟩
      simp [kill_proc_tree, hroot, h2, psKill, hpid2]

/-- Witness for C5 amended on a concrete three-process chain
1 ← 2 ← 3 with no asynchronous exits. -/
theorem kill_proc_tree_ok_of_alive_witness :
    (([1, 2, 3] : List Pid).Nodup ∧
      1 ∈ ({ live := [1, 2, 3], parentOf := [(2, 1), (3, 2)] } : ProcTable).live ∧
      (1 : Pid) ∉ ([] : List Pid) ∧
      (1 : Pid) ∉ descendants { live := [1, 2, 3], parentOf := [(2, 1), (3, 2)] } 1 ∧
      (descendants { live := [1, 2, 3], parentOf := [(2, 1), (3, 2)] } 1).Nodup ∧
      (∀ d ∈ descendants { live := [1, 2, 3], parentOf := [(2, 1), (3, 2)] } 1,
        d ∉ ([] : List Pid))) ∧
    ∃ t2, kill_proc_tree { live := [1, 2, 3], parentOf := [(2, 1), (3, 2)] } [] 1 true =
      .ok t2 :=
  ⟨⟨by decide, by decide, by decide, by decide, by decide, by decide⟩,
   kill_proc_tree_ok_of_alive { live := [1, 2, 3], parentOf := [(2, 1), (3, 2)] }
     [] 1 true (by decide) (by decide) (by decide) (by decide) (by decide) (by decide)⟩

end MatrixOs
